import Mathlib

/-!
Orders service start-up (`cmd/orders/main.go`).

A shallow embedding of `main` and `setupLogger`.  `main` is a straight-line
program over external collaborators (configuration, logger, storage client,
repository, cache, queue connection, router, HTTP server, signals).  Each
collaborator call is an `Event`; what the collaborator answers comes from a
`World`; `main w` is the run of the main goroutine in that world: the sequence
of events in program order together with how the goroutine ends.

What the model fixes:

* `config.MustLoad` and `cache.GetFromDB` may fail to return (they panic, exit
  or hang); every other collaborator call returns.
* A method call through a nil pointer or nil interface (`log.Info` on the nil
  logger, `sub.Unsubscribe` on the nil subscription) panics.
* `os.Exit` ends the process without running deferred calls; a panic and a
  normal return run them.
* The goroutine started with `go func() { srv.ListenAndServe() ... }()` runs
  concurrently; the run of the main goroutine records its start only.
* `<-signals` yields a signal only if it is one of those registered with
  `signal.Notify`; otherwise the main goroutine stays blocked there.
* The order cache itself (package `repository`) is not part of `main.go`; the
  section on the order cache models it from the specification.
-/

namespace Orders

/-! ## Constants (main.go, lines 23-32) -/

/-- Nanoseconds in `time.Second`; a `time.Duration` is a count of nanoseconds. -/
def second : Int := 1000000000

def envLocal : String := "local"
def envDev : String := "dev"
def envProd : String := "prod"
def retryAttempts : Nat := 3
def retryDelay : Int := 1 * second
def ackWait : Int := 60 * second
def durableName : String := "simple-cluster-dur"
def maxInflight : Int := 25

/-! ## Values handed between the collaborators -/

/-- An `os.Signal`, by its number. -/
abbrev Signal := Nat

def SIGINT : Signal := 2
def SIGABRT : Signal := 6
def SIGTERM : Signal := 15

/-- Identity of a `service.Service` value. -/
abbrev ServiceRef := Nat
/-- Identity of a storage client. -/
abbrev ClientRef := Nat
/-- Identity of a repository instance. -/
abbrev RepoRef := Nat
/-- Identity of a cache instance. -/
abbrev CacheRef := Nat
/-- Identity of a queue connection. -/
abbrev ConnRef := Nat
/-- Identity of a subscription. -/
abbrev SubRef := Nat

/-- The `slog` levels used by `setupLogger`. -/
inductive Level
  | Debug
  | Info
  deriving DecidableEq, Repr

/-- The two `slog` handlers used by `setupLogger`, both writing to stdout. -/
inductive HandlerKind
  | Text
  | JSON
  deriving DecidableEq, Repr

/-- A non-nil `*slog.Logger`: `slog.New(handler(os.Stdout, {Level: level}))`. -/
structure Logger where
  handler : HandlerKind
  level : Level
  deriving DecidableEq, Repr

/-- The part of `cfg.Service.HTTPServer` that `main` reads. -/
structure HTTPServerConfig where
  Port : Int
  Address : String
  IddleTimeout : Int
  Timeout : Int
  deriving DecidableEq, Repr

/-- The part of `cfg.Service` that `main` reads. -/
structure ServiceConfig where
  Env : String
  HTTPServer : HTTPServerConfig
  deriving DecidableEq, Repr

/-- The value of `cfg.DB`; `main` only passes it on to the storage client. -/
structure StorageConfig where
  raw : String
  deriving DecidableEq, Repr

/-- The loaded configuration, as far as `main` looks into it. -/
structure Config where
  Service : ServiceConfig
  DB : StorageConfig
  deriving DecidableEq, Repr

/-- The method of the logger that is called. -/
inductive LogMethod
  | Info
  | Error
  deriving DecidableEq, Repr

/-- Arguments following the message of a log call. -/
inductive LogArg
  | String (key value : String)
  | Int (key : String) (value : Int)
  | Err
  deriving DecidableEq, Repr

/-- The `stan` subscription options that `main` passes. -/
inductive SubscriptionOption
  | SetManualAckMode
  | AckWait (d : Int)
  | DurableName (name : String)
  | MaxInflight (n : Int)
  | DeliverAllAvailable
  deriving DecidableEq, Repr

/-- The message handler `nats.GetOrder(ctx, cfg, log, service, repo, cache)`. -/
structure MsgHandler where
  cfg : Config
  log : Option Logger
  service : ServiceRef
  repo : RepoRef
  cache : CacheRef
  deriving DecidableEq, Repr

/-- The chi middlewares installed with `r.Use`. -/
inductive Middleware
  | RequestID
  | RealIP
  | Logger
  | Recoverer
  | URLFormat
  deriving DecidableEq, Repr

/-- The HTTP handlers registered on the router. -/
inductive HttpHandler
  | Time (log : Option Logger)
  | GetOrder (log : Option Logger) (repo : RepoRef) (cache : CacheRef)
  deriving DecidableEq, Repr

/-- The fields of the `http.Server` literal; its `Handler` is the router `r`. -/
structure Server where
  Addr : String
  IdleTimeout : Int
  ReadTimeout : Int
  WriteTimeout : Int
  deriving DecidableEq, Repr

/-- What `cache.GetFromDB` did when it came back: it loaded `n` orders from the
store, or loading failed.  `main` discards whatever the call returns. -/
inductive WarmResult
  | loaded (n : Nat)
  | failed
  deriving DecidableEq, Repr

/-- The two results `(Subscription, error)` of `sc.QueueSubscribe`; `sub = none`
is the nil subscription and `err = true` a non-nil error. -/
structure SubscribeResult where
  sub : Option SubRef
  err : Bool
  deriving DecidableEq, Repr

/-! ## Events and runs -/

/-- One step of the main goroutine that reaches outside `main`. -/
inductive Event
  | MustLoad
  | Log (log : Option Logger) (method : LogMethod) (msg : String) (args : List LogArg)
  | NewService (ret : ServiceRef)
  | NewClient (db : StorageConfig) (attempts : Nat) (ret : Option ClientRef)
  | NewRepository (client : ClientRef) (log : Option Logger) (ret : RepoRef)
  | NewCache (capacity : Nat) (ret : CacheRef)
  | GetFromDB (cache : CacheRef) (repo : RepoRef)
  | GetFromDBReturned (res : WarmResult)
  | NewNatsConnect (cfg : Config) (log : Option Logger) (ret : Option ConnRef)
  | QueueSubscribe (conn : ConnRef) (subject qgroup : String) (cb : MsgHandler)
      (options : List SubscriptionOption) (ret : SubscribeResult)
  | NewRouter
  | Use (m : Middleware)
  | Get (pattern : String) (h : HttpHandler)
  | GoListenAndServe (srv : Server)
  | Notify (sigs : List Signal)
  | Receive (s : Signal)
  | Unsubscribe (sub : Option SubRef)
  | Shutdown (srv : Server)
  | Close (conn : ConnRef)
  deriving DecidableEq, Repr

/-- How the main goroutine ends. -/
inductive Outcome
  /-- The process ends in `os.Exit(code)`. -/
  | exited (code : Nat)
  /-- A nil dereference: a method called on a nil logger or nil subscription. -/
  | panicked
  /-- A collaborator call that `main` is inside never came back. -/
  | noReturn
  /-- Blocked on `<-signals`: no notified signal is delivered to the channel, so
  the goroutine never gets past that line. -/
  | waiting
  /-- The function `main` returned. -/
  | returned
  deriving DecidableEq, Repr

/-- A run of the main goroutine: its events in program order and its end. -/
structure Run where
  trace : List Event
  outcome : Outcome
  deriving DecidableEq, Repr

/-- What the collaborators answer in one execution of the program. -/
structure World where
  /-- `config.MustLoad()`; `none` when it does not return. -/
  MustLoad : Option Config
  /-- `service.NewService()`. -/
  NewService : ServiceRef
  /-- `postgresql.NewClient(...)`; `none` when it returns an error. -/
  NewClient : Option ClientRef
  /-- `repository.NewRepository(...)`. -/
  NewRepository : RepoRef
  /-- `repository.NewCache(10)`. -/
  NewCache : CacheRef
  /-- `cache.GetFromDB(...)`; `none` when the call does not return. -/
  GetFromDB : Option WarmResult
  /-- `nats.NewNatsConnect(...)`; `none` when it returns an error. -/
  NewNatsConnect : Option ConnRef
  /-- `sc.QueueSubscribe(...)`. -/
  QueueSubscribe : SubscribeResult
  /-- The first signal that reaches the process while `main` waits, if any. -/
  signal : Option Signal
  deriving Repr

/-- The run that ends here. -/
def halt (o : Outcome) : Run := ⟨[], o⟩

/-- Perform one event, then go on. -/
def emit (e : Event) (rest : Run) : Run := ⟨e :: rest.trace, rest.outcome⟩

/-- A method call on `log`: on the nil logger the call dereferences nil and the
goroutine panics; otherwise it returns and the run goes on. -/
def logCall (log : Option Logger) (method : LogMethod) (msg : String)
    (args : List LogArg) (rest : Run) : Run :=
  emit (.Log log method msg args) <|
    match log with
    | none => halt .panicked
    | some _ => rest

/-- The Go statement `defer d` in front of `body`: the deferred call runs when
the function returns or panics, and does not run on `os.Exit` or while the
goroutine never gets to either. -/
def withDefer (d : Event) (body : Run) : Run :=
  match body.outcome with
  | .returned => ⟨body.trace ++ [d], .returned⟩
  | .panicked => ⟨body.trace ++ [d], .panicked⟩
  | o => ⟨body.trace, o⟩

/-- The signals registered with `signal.Notify` (main.go, line 88). -/
def notified : List Signal := [SIGINT, SIGABRT, SIGTERM]

/-! ## `setupLogger` (main.go, lines 95-106) -/

def setupLogger (env : String) : Option Logger :=
  if env = envLocal then
    some ⟨.Text, .Debug⟩
  else if env = envDev then
    some ⟨.JSON, .Debug⟩
  else if env = envProd then
    some ⟨.JSON, .Info⟩
  else
    none

/-! ## `main` (main.go, lines 34-93) -/

def main (w : World) : Run :=
  emit .MustLoad <|
  match w.MustLoad with
  | none => halt .noReturn
  | some cfg =>
  let log := setupLogger cfg.Service.Env
  logCall log .Info "Orders service is starting!" [.String "env" cfg.Service.Env] <|
  emit (.NewService w.NewService) <|
  let service := w.NewService
  emit (.NewClient cfg.DB 3 w.NewClient) <|
  match w.NewClient with
  | none =>
    logCall log .Error "Failed connection to storage!: %s" [.Err] <|
    halt (.exited 1)
  | some postgresqlClient =>
  emit (.NewRepository postgresqlClient log w.NewRepository) <|
  let repo := w.NewRepository
  emit (.NewCache 10 w.NewCache) <|
  let cache := w.NewCache
  emit (.GetFromDB cache repo) <|
  match w.GetFromDB with
  | none => halt .noReturn
  | some res =>
  emit (.GetFromDBReturned res) <|
  emit (.NewNatsConnect cfg log w.NewNatsConnect) <|
  match w.NewNatsConnect with
  | none =>
    logCall log .Error "NATS: " [.Err] <|
    halt (.exited 1)
  | some sc =>
  withDefer (.Close sc) <|
  emit (.QueueSubscribe sc "orders" "oders_group" ⟨cfg, log, service, repo, cache⟩
    [.SetManualAckMode, .AckWait ackWait, .DurableName durableName,
     .MaxInflight maxInflight, .DeliverAllAvailable] w.QueueSubscribe) <|
  let sub := w.QueueSubscribe.sub
  (if w.QueueSubscribe.err then logCall log .Error "Nats: " [.Err] else id) <|
  emit .NewRouter <|
  emit (.Use .RequestID) <|
  emit (.Use .RealIP) <|
  emit (.Use .Logger) <|
  emit (.Use .Recoverer) <|
  emit (.Use .URLFormat) <|
  emit (.Get "/time" (.Time log)) <|
  emit (.Get "/order={id}" (.GetOrder log repo cache)) <|
  logCall log .Info "Starting the http server on" [.Int "port" cfg.Service.HTTPServer.Port] <|
  let srv : Server :=
    { Addr := cfg.Service.HTTPServer.Address
      IdleTimeout := cfg.Service.HTTPServer.IddleTimeout
      ReadTimeout := cfg.Service.HTTPServer.Timeout
      WriteTimeout := cfg.Service.HTTPServer.Timeout }
  emit (.GoListenAndServe srv) <|
  emit (.Notify [SIGINT, SIGABRT, SIGTERM]) <|
  match w.signal.filter (fun s => decide (s ∈ notified)) with
  | none => halt .waiting
  | some s =>
  emit (.Receive s) <|
  emit (.Unsubscribe sub) <|
  match sub with
  | none => halt .panicked
  | some _ =>
  logCall log .Error "Server stoped!" [] <|
  emit (.Shutdown srv) <|
  halt .returned

/-! ## Sample worlds -/

def sampleConfig : Config :=
  { Service := { Env := "local",
                 HTTPServer := { Port := 8080, Address := "localhost:8080",
                                 IddleTimeout := 60 * second, Timeout := 4 * second } },
    DB := { raw := "postgres://orders" } }

/-- Everything succeeds and SIGINT arrives. -/
def happyWorld : World :=
  { MustLoad := some sampleConfig, NewService := 1, NewClient := some 2, NewRepository := 3,
    NewCache := 4, GetFromDB := some (.loaded 10), NewNatsConnect := some 5,
    QueueSubscribe := { sub := some 6, err := false }, signal := some SIGINT }


/-! ## The paths through `main` -/

/-- Events of lines 35-39: up to and including the storage-client call. -/
def traceToClient (w : World) (cfg : Config) (log : Option Logger) : List Event :=
  [.MustLoad,
   .Log log .Info "Orders service is starting!" [.String "env" cfg.Service.Env],
   .NewService w.NewService,
   .NewClient cfg.DB 3 w.NewClient]

/-- Events of lines 35-46: up to and including the warm-up call. -/
def traceToWarm (w : World) (cfg : Config) (log : Option Logger) (client : ClientRef) :
    List Event :=
  traceToClient w cfg log ++
  [.NewRepository client log w.NewRepository,
   .NewCache 10 w.NewCache,
   .GetFromDB w.NewCache w.NewRepository]

/-- Events of lines 35-47: up to and including the queue connection call. -/
def traceToConnect (w : World) (cfg : Config) (log : Option Logger) (client : ClientRef)
    (res : WarmResult) : List Event :=
  traceToWarm w cfg log client ++
  [.GetFromDBReturned res, .NewNatsConnect cfg log w.NewNatsConnect]

/-- The server value built at lines 75-81. -/
def serverOf (cfg : Config) : Server :=
  { Addr := cfg.Service.HTTPServer.Address
    IdleTimeout := cfg.Service.HTTPServer.IddleTimeout
    ReadTimeout := cfg.Service.HTTPServer.Timeout
    WriteTimeout := cfg.Service.HTTPServer.Timeout }

/-- Events of lines 67-88: middlewares, routes, server start, signal registration. -/
def traceRouter (w : World) (cfg : Config) (log : Option Logger) : List Event :=
  [.Use .RequestID, .Use .RealIP, .Use .Logger, .Use .Recoverer, .Use .URLFormat,
   .Get "/time" (.Time log),
   .Get "/order={id}" (.GetOrder log w.NewRepository w.NewCache),
   .Log log .Info "Starting the http server on" [.Int "port" cfg.Service.HTTPServer.Port],
   .GoListenAndServe (serverOf cfg),
   .Notify [SIGINT, SIGABRT, SIGTERM]]

/-- Events of lines 53-88: subscription, router, server start, signal registration. -/
def traceServing (w : World) (cfg : Config) (log : Option Logger) (sc : ConnRef) :
    List Event :=
  [.QueueSubscribe sc "orders" "oders_group"
      ⟨cfg, log, w.NewService, w.NewRepository, w.NewCache⟩
      [.SetManualAckMode, .AckWait ackWait, .DurableName durableName,
       .MaxInflight maxInflight, .DeliverAllAvailable] w.QueueSubscribe] ++
  (if w.QueueSubscribe.err then [.Log log .Error "Nats: " [.Err]] else []) ++
  .NewRouter :: traceRouter w cfg log

/-- The eight ways a run of `main` can go, each with the answers of the world
that select it and the run it produces. -/
inductive Path (w : World) : Run → Prop
  | configLost : w.MustLoad = none → Path w ⟨[.MustLoad], .noReturn⟩
  | nilLogger (cfg : Config) : w.MustLoad = some cfg → setupLogger cfg.Service.Env = none →
      Path w ⟨[.MustLoad,
               .Log none .Info "Orders service is starting!" [.String "env" cfg.Service.Env]],
              .panicked⟩
  | storageDown (cfg : Config) (lg : Logger) : w.MustLoad = some cfg →
      setupLogger cfg.Service.Env = some lg → w.NewClient = none →
      Path w ⟨traceToClient w cfg (some lg) ++
                [.Log (some lg) .Error "Failed connection to storage!: %s" [.Err]],
              .exited 1⟩
  | warmLost (cfg : Config) (lg : Logger) (client : ClientRef) : w.MustLoad = some cfg →
      setupLogger cfg.Service.Env = some lg → w.NewClient = some client →
      w.GetFromDB = none →
      Path w ⟨traceToWarm w cfg (some lg) client, .noReturn⟩
  | queueDown (cfg : Config) (lg : Logger) (client : ClientRef) (res : WarmResult) :
      w.MustLoad = some cfg → setupLogger cfg.Service.Env = some lg →
      w.NewClient = some client → w.GetFromDB = some res → w.NewNatsConnect = none →
      Path w ⟨traceToConnect w cfg (some lg) client res ++
                [.Log (some lg) .Error "NATS: " [.Err]],
              .exited 1⟩
  | noSignal (cfg : Config) (lg : Logger) (client : ClientRef) (res : WarmResult)
      (sc : ConnRef) :
      w.MustLoad = some cfg → setupLogger cfg.Service.Env = some lg →
      w.NewClient = some client → w.GetFromDB = some res → w.NewNatsConnect = some sc →
      w.signal.filter (fun s => decide (s ∈ notified)) = none →
      Path w ⟨traceToConnect w cfg (some lg) client res ++ traceServing w cfg (some lg) sc,
              .waiting⟩
  | nilSubscription (cfg : Config) (lg : Logger) (client : ClientRef) (res : WarmResult)
      (sc : ConnRef) (s : Signal) :
      w.MustLoad = some cfg → setupLogger cfg.Service.Env = some lg →
      w.NewClient = some client → w.GetFromDB = some res → w.NewNatsConnect = some sc →
      w.signal.filter (fun s => decide (s ∈ notified)) = some s →
      w.QueueSubscribe.sub = none →
      Path w ⟨traceToConnect w cfg (some lg) client res ++ traceServing w cfg (some lg) sc ++
                [.Receive s, .Unsubscribe none, .Close sc],
              .panicked⟩
  | stopped (cfg : Config) (lg : Logger) (client : ClientRef) (res : WarmResult)
      (sc : ConnRef) (s : Signal) (sub : SubRef) :
      w.MustLoad = some cfg → setupLogger cfg.Service.Env = some lg →
      w.NewClient = some client → w.GetFromDB = some res → w.NewNatsConnect = some sc →
      w.signal.filter (fun s => decide (s ∈ notified)) = some s →
      w.QueueSubscribe.sub = some sub →
      Path w ⟨traceToConnect w cfg (some lg) client res ++ traceServing w cfg (some lg) sc ++
                [.Receive s, .Unsubscribe (some sub),
                 .Log (some lg) .Error "Server stoped!" [], .Shutdown (serverOf cfg),
                 .Close sc],
              .returned⟩

/-! ## Kinds of events -/

/-- The warm-up call `cache.GetFromDB(ctx, repo)` is made. -/
def Event.isWarmCall : Event → Bool
  | .GetFromDB _ _ => true
  | _ => false

/-- The warm-up call has come back. -/
def Event.isWarmReturn : Event → Bool
  | .GetFromDBReturned _ => true
  | _ => false

/-- The cache is constructed. -/
def Event.isNewCache : Event → Bool
  | .NewCache _ _ => true
  | _ => false

/-- The repository is constructed. -/
def Event.isNewRepository : Event → Bool
  | .NewRepository _ _ _ => true
  | _ => false

/-- The queue connection is attempted. -/
def Event.isConnect : Event → Bool
  | .NewNatsConnect _ _ _ => true
  | _ => false

/-- The queue subscription is created. -/
def Event.isSubscribe : Event → Bool
  | .QueueSubscribe _ _ _ _ _ _ => true
  | _ => false

/-- The HTTP server is started. -/
def Event.isServe : Event → Bool
  | .GoListenAndServe _ => true
  | _ => false

/-- A notified termination signal is taken from the signal channel. -/
def Event.isTermination : Event → Bool
  | .Receive s => decide (s = SIGINT ∨ s = SIGABRT ∨ s = SIGTERM)
  | _ => false

/-- The subscription is ended with `Unsubscribe`. -/
def Event.isUnsubscribe : Event → Bool
  | .Unsubscribe _ => true
  | _ => false

/-- The HTTP server is shut down. -/
def Event.isShutdown : Event → Bool
  | .Shutdown _ => true
  | _ => false

/-- Every event of kind `q` in the list has an event of kind `p` somewhere
before it. -/
def precededBy (p q : Event → Bool) : List Event → Bool
  | [] => true
  | e :: es => !q e && (p e || precededBy p q es)

/-- Modelled from the spec: the Order type lives in the repository package, which
is not among the sources; an order is identified by its order UID and carries
the rest of its content. -/
structure Order where
  uid : String
  content : String
  deriving DecidableEq, Repr

/-- Modelled from the spec: the Order Cache (`repository.NewCache`, its `Put`,
`Get` and warm-up) is not among the sources.  The cache has a capacity fixed at
construction and maps order UIDs to orders; the entries are kept most recently
used first. -/
structure Cache where
  capacity : Nat
  entries : List (String × Order)
  deriving DecidableEq, Repr

/-- Modelled from the spec: `repository.NewCache` is missing; a new cache has the
given capacity and no entries. -/
def NewCache (capacity : Nat) : Cache := ⟨capacity, []⟩

/-- Modelled from the spec: `Put` of the missing cache inserts or refreshes the
entry for `id`; if the cache is at capacity and `id` is new, exactly one
existing entry, the least recently used, is evicted before inserting. -/
def Cache.Put (c : Cache) (id : String) (o : Order) : Cache :=
  if c.entries.any (fun e => e.1 = id) then
    { c with entries := (id, o) :: c.entries.filter (fun e => e.1 ≠ id) }
  else if c.entries.length = c.capacity then
    { c with entries := (id, o) :: c.entries.dropLast }
  else
    { c with entries := (id, o) :: c.entries }

/-- Modelled from the spec: `Get` of the missing cache returns the entry for `id`
when there is one, and a hit makes the entry the most recently used. -/
def Cache.Get (c : Cache) (id : String) : Option Order × Cache :=
  match c.entries.find? (fun e => e.1 = id) with
  | some e => (some e.2, { c with entries := e :: c.entries.filter (fun x => x.1 ≠ id) })
  | none => (none, c)

/-- Modelled from the spec: the warm-up of the missing cache performs `Put` for
each supplied order, in the order given. -/
def Cache.Warm (c : Cache) (orders : List Order) : Cache :=
  orders.foldl (fun c o => c.Put o.uid o) c

/-- An operation on the cache after warm-up: a `Put` by the consumer or by the
lookup handler, or a `Get` by the lookup handler. -/
inductive CacheOp
  | Put (id : String) (o : Order)
  | Get (id : String)
  deriving DecidableEq, Repr

/-- The cache after one operation. -/
def Cache.apply (c : Cache) : CacheOp → Cache
  | .Put id o => c.Put id o
  | .Get id => (c.Get id).2

/-- The cache after a sequence of operations. -/
def Cache.run (c : Cache) (ops : List CacheOp) : Cache :=
  ops.foldl Cache.apply c

/-! ## More sample worlds -/

/-- The storage client cannot be created. -/
def storageDownWorld : World := { happyWorld with NewClient := none }

/-- The warm-up fails to load and returns; then the queue connection fails. -/
def queueDownWorld : World :=
  { happyWorld with GetFromDB := some .failed, NewNatsConnect := none }

/-- The warm-up fails to load and returns; everything else succeeds. -/
def warmFailedWorld : World := { happyWorld with GetFromDB := some .failed }

/-- The subscription fails with the nil subscription; SIGTERM arrives. -/
def subscribeFailedWorld : World :=
  { happyWorld with QueueSubscribe := { sub := none, err := true }, signal := some SIGTERM }

/-- The configured environment is not one of the three known names. -/
def unknownEnvWorld : World :=
  { happyWorld with
    MustLoad := some { sampleConfig with Service := { sampleConfig.Service with Env := "" } } }

/-- Twelve orders with distinct UIDs. -/
def sampleOrders : List Order :=
  (List.range 12).map (fun i => { uid := toString i, content := "order" })

/-! ## Lemmas -/

/-- Every run of `main` is one of the eight paths. -/
theorem main_path (w : World) : Path w (main w) := by
  obtain ⟨ml, sv, pg, rp, ch, wm, nc, ⟨sub, err⟩, sg⟩ := w
  rcases ml with _ | cfg
  · exact .configLost rfl
  rcases hlog : setupLogger cfg.Service.Env with _ | lg
  · have := Path.nilLogger (w := ⟨some cfg, sv, pg, rp, ch, wm, nc, ⟨sub, err⟩, sg⟩) cfg rfl hlog
    simpa [main, hlog, emit, halt, logCall] using this
  rcases pg with _ | client
  · have := Path.storageDown (w := ⟨some cfg, sv, none, rp, ch, wm, nc, ⟨sub, err⟩, sg⟩)
      cfg lg rfl hlog rfl
    simpa [main, hlog, emit, halt, logCall, traceToClient] using this
  rcases wm with _ | res
  · have := Path.warmLost (w := ⟨some cfg, sv, some client, rp, ch, none, nc, ⟨sub, err⟩, sg⟩)
      cfg lg client rfl hlog rfl rfl
    simpa [main, hlog, emit, halt, logCall, traceToClient, traceToWarm] using this
  rcases nc with _ | sc
  · have := Path.queueDown
      (w := ⟨some cfg, sv, some client, rp, ch, some res, none, ⟨sub, err⟩, sg⟩)
      cfg lg client res rfl hlog rfl rfl rfl
    simpa [main, hlog, emit, halt, logCall, traceToClient, traceToWarm, traceToConnect]
      using this
  rcases hsig : Option.filter (fun s => decide (s ∈ notified)) sg with _ | s
  · have := Path.noSignal
      (w := ⟨some cfg, sv, some client, rp, ch, some res, some sc, ⟨sub, err⟩, sg⟩)
      cfg lg client res sc rfl hlog rfl rfl rfl hsig
    cases err <;>
      simpa [main, hlog, hsig, emit, halt, logCall, withDefer, traceToClient, traceToWarm,
        traceToConnect, traceServing, traceRouter, serverOf] using this
  rcases sub with _ | sub
  · have := Path.nilSubscription
      (w := ⟨some cfg, sv, some client, rp, ch, some res, some sc, ⟨none, err⟩, sg⟩)
      cfg lg client res sc s rfl hlog rfl rfl rfl hsig rfl
    cases err <;>
      simpa [main, hlog, hsig, emit, halt, logCall, withDefer, traceToClient, traceToWarm,
        traceToConnect, traceServing, traceRouter, serverOf] using this
  · have := Path.stopped
      (w := ⟨some cfg, sv, some client, rp, ch, some res, some sc, ⟨some sub, err⟩, sg⟩)
      cfg lg client res sc s sub rfl hlog rfl rfl rfl hsig rfl
    cases err <;>
      simpa [main, hlog, hsig, emit, halt, logCall, withDefer, traceToClient, traceToWarm,
        traceToConnect, traceServing, traceRouter, serverOf] using this

/-- A list passes `precededBy p q` only if each of its `q` events has a `p`
event in front of it. -/
theorem precededBy_sound (p q : Event → Bool) :
    ∀ (l : List Event), precededBy p q l = true →
      ∀ pre e post, l = pre ++ e :: post → q e = true → ∃ x ∈ pre, p x = true := by
  intro l
  induction l with
  | nil => intro _ pre e post h; simp at h
  | cons a l ih =>
    intro hl pre e post h hq
    simp only [precededBy, Bool.and_eq_true, Bool.not_eq_true', Bool.or_eq_true] at hl
    rcases pre with _ | ⟨b, pre⟩
    · simp only [List.nil_append, List.cons.injEq] at h
      rw [← h.1, hl.1] at hq
      exact absurd hq (by simp)
    · simp only [List.cons_append, List.cons.injEq] at h
      obtain ⟨hab, hl2⟩ := h
      subst hab
      rcases hl.2 with hp | hrest
      · exact ⟨a, by simp, hp⟩
      · obtain ⟨x, hx, hpx⟩ := ih hrest pre e post hl2 hq
        exact ⟨x, by simp [hx], hpx⟩

/-- From a filtered signal: the received signal is one of the notified three. -/
theorem signal_notified (o : Option Signal) (s : Signal)
    (h : o.filter (fun s => decide (s ∈ notified)) = some s) :
    s = SIGINT ∨ s = SIGABRT ∨ s = SIGTERM := by
  rcases o with _ | a
  · simp [Option.filter] at h
  · simp only [Option.filter] at h
    split at h
    · rename_i hd
      simp only [Option.some.injEq] at h
      subst h
      simpa [notified] using hd
    · simp at h

/-- A signal registered with `signal.Notify` passes the filter of `<-signals`. -/
theorem filter_signal_some (s : Signal) (hs : s = SIGINT ∨ s = SIGABRT ∨ s = SIGTERM) :
    (some s : Option Signal).filter (fun s => decide (s ∈ notified)) = some s := by
  rcases hs with rfl | rfl | rfl <;> decide

/-! ## Claims -/

/-- C10: setupLogger returns a logger exactly for the environments "local", "dev"
and "prod" (text handler at Debug, JSON handler at Debug, JSON handler at Info),
and nil for every other string, the empty one included; main makes its first log
call on that result whatever it is, directly after loading the configuration. -/
theorem C10_setupLogger_and_first_log :
    setupLogger "local" = some ⟨.Text, .Debug⟩ ∧
    setupLogger "dev" = some ⟨.JSON, .Debug⟩ ∧
    setupLogger "prod" = some ⟨.JSON, .Info⟩ ∧
    (∀ env : String, env ≠ "local" → env ≠ "dev" → env ≠ "prod" → setupLogger env = none) ∧
    setupLogger "" = none ∧
    (∀ env : String, (setupLogger env).isSome = true ↔
      env = "local" ∨ env = "dev" ∨ env = "prod") ∧
    (∀ (w : World) (cfg : Config), w.MustLoad = some cfg →
      (main w).trace.take 2 =
        [.MustLoad,
         .Log (setupLogger cfg.Service.Env) .Info "Orders service is starting!"
           [.String "env" cfg.Service.Env]]) := by
  refine ⟨by decide, by decide, by decide, ?_, by decide, ?_, ?_⟩
  · intro env h1 h2 h3
    simp [setupLogger, envLocal, envDev, envProd, h1, h2, h3]
  · intro env
    unfold setupLogger envLocal envDev envProd
    by_cases h1 : env = "local"
    · simp [h1]
    by_cases h2 : env = "dev"
    · simp [h2]
    by_cases h3 : env = "prod"
    · simp [h3]
    simp [h1, h2, h3]
  · intro w cfg hcfg
    simp [main, hcfg, emit, logCall]

/-- C10 at a configuration whose environment is the empty string: the first log
call of main is made on the nil logger. -/
theorem C10_setupLogger_and_first_log_witness :
    unknownEnvWorld.MustLoad =
        some { sampleConfig with Service := { sampleConfig.Service with Env := "" } } ∧
    (main unknownEnvWorld).trace.take 2 =
      [.MustLoad,
       .Log (setupLogger "") .Info "Orders service is starting!" [.String "env" ""]] :=
  ⟨rfl, C10_setupLogger_and_first_log.2.2.2.2.2.2 unknownEnvWorld _ rfl⟩

/-- C4: every subscription main creates is a queue subscription on subject
"orders" with group "oders_group" whose options are exactly manual
acknowledgment, an acknowledgment wait of 60 seconds, the durable name
"simple-cluster-dur", at most 25 messages in flight and deliver-all-available;
this holds in every world, so for every loaded configuration. -/
theorem C4_subscription_fixed (w : World) (conn : ConnRef) (subject qgroup : String)
    (cb : MsgHandler) (options : List SubscriptionOption) (ret : SubscribeResult)
    (h : Event.QueueSubscribe conn subject qgroup cb options ret ∈ (main w).trace) :
    subject = "orders" ∧ qgroup = "oders_group" ∧
    options = [.SetManualAckMode, .AckWait (60 * second), .DurableName "simple-cluster-dur",
               .MaxInflight 25, .DeliverAllAvailable] ∧
    second = 1000000000 ∧
    (main w).trace.countP Event.isSubscribe = 1 := by
  have hp := main_path w
  generalize main w = r at hp h
  cases hp <;>
    simp [traceToClient, traceToWarm, traceToConnect, traceServing, traceRouter] at h <;>
    rcases hq : w.QueueSubscribe.err <;>
    simp [h, hq, traceToClient, traceToWarm, traceToConnect, traceServing, traceRouter, ackWait,
      durableName, maxInflight, second, Event.isSubscribe]

/-- C4 in the world where everything succeeds. -/
theorem C4_subscription_fixed_witness :
    Event.QueueSubscribe 5 "orders" "oders_group" ⟨sampleConfig, some ⟨.Text, .Debug⟩, 1, 3, 4⟩
        [.SetManualAckMode, .AckWait 60000000000, .DurableName "simple-cluster-dur",
         .MaxInflight 25, .DeliverAllAvailable] ⟨some 6, false⟩ ∈ (main happyWorld).trace ∧
    (main happyWorld).trace.countP Event.isSubscribe = 1 :=
  ⟨by decide,
   (C4_subscription_fixed happyWorld 5 "orders" "oders_group"
      ⟨sampleConfig, some ⟨.Text, .Debug⟩, 1, 3, 4⟩
      [.SetManualAckMode, .AckWait 60000000000, .DurableName "simple-cluster-dur",
       .MaxInflight 25, .DeliverAllAvailable] ⟨some 6, false⟩ (by decide)).2.2.2.2⟩

/-- C8: if the storage client cannot be created, main exits with status 1 and
neither constructs the cache, nor warms it, nor connects to the queue, nor
subscribes, nor starts the HTTP server; if the queue connection fails, main
exits with status 1 and neither subscribes nor starts the HTTP server. -/
theorem C8_connection_failures_fatal (w : World) :
    (∀ db attempts, Event.NewClient db attempts none ∈ (main w).trace →
      (main w).outcome = .exited 1 ∧
      ∀ e ∈ (main w).trace, e.isNewCache = false ∧ e.isWarmCall = false ∧
        e.isConnect = false ∧ e.isSubscribe = false ∧ e.isServe = false) ∧
    (∀ cfg log, Event.NewNatsConnect cfg log none ∈ (main w).trace →
      (main w).outcome = .exited 1 ∧
      ∀ e ∈ (main w).trace, e.isSubscribe = false ∧ e.isServe = false) := by
  have hp := main_path w
  generalize main w = r at hp
  constructor
  · intro db attempts h
    cases hp <;>
      simp_all [traceToClient, traceToWarm, traceToConnect, traceServing, traceRouter, Event.isNewCache,
        Event.isWarmCall, Event.isConnect, Event.isSubscribe, Event.isServe]
  · intro cfg log h
    cases hp <;>
      simp_all [traceToClient, traceToWarm, traceToConnect, traceServing, traceRouter, Event.isNewCache,
        Event.isWarmCall, Event.isConnect, Event.isSubscribe, Event.isServe]

/-- C8 in a world whose storage client cannot be created and in a world whose
queue connection fails. -/
theorem C8_connection_failures_fatal_witness :
    (Event.NewClient ⟨"postgres://orders"⟩ 3 none ∈ (main storageDownWorld).trace ∧
      (main storageDownWorld).outcome = .exited 1 ∧
      ∀ e ∈ (main storageDownWorld).trace, e.isNewCache = false ∧ e.isWarmCall = false ∧
        e.isConnect = false ∧ e.isSubscribe = false ∧ e.isServe = false) ∧
    (Event.NewNatsConnect sampleConfig (some ⟨.Text, .Debug⟩) none ∈
        (main queueDownWorld).trace ∧
      (main queueDownWorld).outcome = .exited 1 ∧
      ∀ e ∈ (main queueDownWorld).trace, e.isSubscribe = false ∧ e.isServe = false) :=
  ⟨⟨by decide,
    (C8_connection_failures_fatal storageDownWorld).1 ⟨"postgres://orders"⟩ 3 (by decide)⟩,
   ⟨by decide,
    (C8_connection_failures_fatal queueDownWorld).2 sampleConfig (some ⟨.Text, .Debug⟩)
      (by decide)⟩⟩

/-- C9: if QueueSubscribe returns an error, main logs it and goes on: the log
call directly follows the subscription call, the HTTP server is started and the
signals are registered afterwards, and main does not exit.  It then waits: with
no signal it stays blocked, and when SIGINT, SIGABRT or SIGTERM arrives main
receives it and the very next thing it does is call Unsubscribe on the
subscription value the failed call returned, the nil subscription included. -/
theorem C9_failed_subscription_not_fatal (w : World) (conn : ConnRef)
    (subject qgroup : String) (cb : MsgHandler) (options : List SubscriptionOption)
    (sub : Option SubRef)
    (h : Event.QueueSubscribe conn subject qgroup cb options ⟨sub, true⟩ ∈ (main w).trace) :
    ∃ pre post log, (main w).trace =
        pre ++ [.QueueSubscribe conn subject qgroup cb options ⟨sub, true⟩,
                .Log log .Error "Nats: " [.Err], .NewRouter] ++ post ∧
      (∃ srv, Event.GoListenAndServe srv ∈ post) ∧
      Event.Notify [SIGINT, SIGABRT, SIGTERM] ∈ post ∧
      (∀ code, (main w).outcome ≠ .exited code) ∧
      ((∀ s, Event.Receive s ∉ post) → (main w).outcome = .waiting) ∧
      (∀ s, Event.Receive s ∈ post →
        ∃ mid rest, post = mid ++ [.Receive s, .Unsubscribe sub] ++ rest) ∧
      (w.signal = none → (main w).outcome = .waiting) ∧
      (∀ s, w.signal = some s → s = SIGINT ∨ s = SIGABRT ∨ s = SIGTERM →
        ∃ mid rest, post = mid ++ [.Receive s, .Unsubscribe sub] ++ rest) := by
  have hp := main_path w
  generalize main w = r at hp h
  cases hp
  case configLost => simp at h
  case nilLogger => simp at h
  case storageDown => simp [traceToClient] at h
  case warmLost => simp [traceToClient, traceToWarm] at h
  case queueDown => simp [traceToClient, traceToWarm, traceToConnect] at h
  case noSignal cfg lg client res sc h1 h2 h3 h4 h5 h6 =>
    rcases hq : w.QueueSubscribe with ⟨qs, qe⟩
    simp [traceToClient, traceToWarm, traceToConnect, traceServing, traceRouter, hq] at h
    obtain ⟨rfl, rfl, rfl, rfl, rfl, rfl, rfl⟩ := h
    refine ⟨traceToConnect w cfg (some lg) client res, traceRouter w cfg (some lg), some lg,
      ?_, ⟨serverOf cfg, ?_⟩, ?_, ?_, ?_, ?_, ?_, ?_⟩
    · simp [traceServing, hq]
    · simp [traceRouter]
    · simp [traceRouter]
    · simp
    · intro _; rfl
    · intro s hs; simp [traceRouter] at hs
    · intro _; rfl
    · intro s hsig hs
      rw [hsig, filter_signal_some s hs] at h6
      simp at h6
  case nilSubscription cfg lg client res sc s h1 h2 h3 h4 h5 h6 h7 =>
    rcases hq : w.QueueSubscribe with ⟨qs, qe⟩
    simp [traceToClient, traceToWarm, traceToConnect, traceServing, traceRouter, hq] at h
    obtain ⟨rfl, rfl, rfl, rfl, rfl, rfl, rfl⟩ := h
    simp only [hq] at h7
    subst h7
    refine ⟨traceToConnect w cfg (some lg) client res,
      traceRouter w cfg (some lg) ++ [.Receive s, .Unsubscribe none, .Close conn], some lg,
      ?_, ⟨serverOf cfg, ?_⟩, ?_, ?_, ?_, ?_, ?_, ?_⟩
    · simp [traceServing, hq]
    · simp [traceRouter]
    · simp [traceRouter]
    · simp
    · intro hno; exact absurd (by simp) (hno s)
    · intro s1 hs1
      simp [traceRouter] at hs1
      subst hs1
      exact ⟨traceRouter w cfg (some lg), [.Close conn], by simp⟩
    · intro hnone
      rw [hnone] at h6
      simp [Option.filter] at h6
    · intro s1 hsig hs
      rw [hsig, filter_signal_some s1 hs] at h6
      have : s1 = s := Option.some.inj h6
      subst this
      exact ⟨traceRouter w cfg (some lg), [.Close conn], by simp⟩
  case stopped cfg lg client res sc s sb h1 h2 h3 h4 h5 h6 h7 =>
    rcases hq : w.QueueSubscribe with ⟨qs, qe⟩
    simp [traceToClient, traceToWarm, traceToConnect, traceServing, traceRouter, hq] at h
    obtain ⟨rfl, rfl, rfl, rfl, rfl, rfl, rfl⟩ := h
    simp only [hq] at h7
    subst h7
    refine ⟨traceToConnect w cfg (some lg) client res,
      traceRouter w cfg (some lg) ++ [.Receive s, .Unsubscribe (some sb),
        .Log (some lg) .Error "Server stoped!" [], .Shutdown (serverOf cfg), .Close conn],
      some lg, ?_, ⟨serverOf cfg, ?_⟩, ?_, ?_, ?_, ?_, ?_, ?_⟩
    · simp [traceServing, hq]
    · simp [traceRouter]
    · simp [traceRouter]
    · simp
    · intro hno; exact absurd (by simp) (hno s)
    · intro s1 hs1
      simp [traceRouter] at hs1
      subst hs1
      exact ⟨traceRouter w cfg (some lg),
        [.Log (some lg) .Error "Server stoped!" [], .Shutdown (serverOf cfg), .Close conn],
        by simp⟩
    · intro hnone
      rw [hnone] at h6
      simp [Option.filter] at h6
    · intro s1 hsig hs
      rw [hsig, filter_signal_some s1 hs] at h6
      have : s1 = s := Option.some.inj h6
      subst this
      exact ⟨traceRouter w cfg (some lg),
        [.Log (some lg) .Error "Server stoped!" [], .Shutdown (serverOf cfg), .Close conn],
        by simp⟩

/-- C9 in the world where the subscription fails with the nil subscription and
SIGTERM arrives: after the receipt of SIGTERM main calls Unsubscribe on the nil
subscription. -/
theorem C9_failed_subscription_not_fatal_witness :
    Event.QueueSubscribe 5 "orders" "oders_group" ⟨sampleConfig, some ⟨.Text, .Debug⟩, 1, 3, 4⟩
        [.SetManualAckMode, .AckWait 60000000000, .DurableName "simple-cluster-dur",
         .MaxInflight 25, .DeliverAllAvailable] ⟨none, true⟩ ∈
      (main subscribeFailedWorld).trace ∧
    subscribeFailedWorld.signal = some SIGTERM ∧
    Event.Receive SIGTERM ∈ (main subscribeFailedWorld).trace ∧
    Event.Unsubscribe none ∈ (main subscribeFailedWorld).trace ∧
    ∃ pre post log, (main subscribeFailedWorld).trace =
        pre ++ [.QueueSubscribe 5 "orders" "oders_group"
                  ⟨sampleConfig, some ⟨.Text, .Debug⟩, 1, 3, 4⟩
                  [.SetManualAckMode, .AckWait 60000000000, .DurableName "simple-cluster-dur",
                   .MaxInflight 25, .DeliverAllAvailable] ⟨none, true⟩,
                .Log log .Error "Nats: " [.Err], .NewRouter] ++ post ∧
      (∃ srv, Event.GoListenAndServe srv ∈ post) ∧
      Event.Notify [SIGINT, SIGABRT, SIGTERM] ∈ post ∧
      (∀ code, (main subscribeFailedWorld).outcome ≠ .exited code) ∧
      ((∀ s, Event.Receive s ∉ post) → (main subscribeFailedWorld).outcome = .waiting) ∧
      (∀ s, Event.Receive s ∈ post →
        ∃ mid rest, post = mid ++ [.Receive s, .Unsubscribe none] ++ rest) ∧
      (subscribeFailedWorld.signal = none →
        (main subscribeFailedWorld).outcome = .waiting) ∧
      (∀ s, subscribeFailedWorld.signal = some s → s = SIGINT ∨ s = SIGABRT ∨ s = SIGTERM →
        ∃ mid rest, post = mid ++ [.Receive s, .Unsubscribe none] ++ rest) :=
  ⟨by decide, rfl, by decide, by decide,
   C9_failed_subscription_not_fatal subscribeFailedWorld 5 "orders" "oders_group"
     ⟨sampleConfig, some ⟨.Text, .Debug⟩, 1, 3, 4⟩
     [.SetManualAckMode, .AckWait 60000000000, .DurableName "simple-cluster-dur",
      .MaxInflight 25, .DeliverAllAvailable] none (by decide)⟩

/-- C6: in every run of main, each call of Unsubscribe comes after the receipt
of SIGINT, SIGABRT or SIGTERM from the signal channel, Unsubscribe is called at
most once, and each Shutdown of the HTTP server comes after a call of
Unsubscribe. -/
theorem C6_unsubscribe_only_on_shutdown (w : World) :
    (∀ pre sub post, (main w).trace = pre ++ Event.Unsubscribe sub :: post →
      ∃ s, (s = SIGINT ∨ s = SIGABRT ∨ s = SIGTERM) ∧ Event.Receive s ∈ pre) ∧
    (main w).trace.countP Event.isUnsubscribe ≤ 1 ∧
    (∀ pre srv post, (main w).trace = pre ++ Event.Shutdown srv :: post →
      ∃ sub, Event.Unsubscribe sub ∈ pre) := by
  have hp := main_path w
  generalize main w = r at hp
  have h1 : precededBy Event.isTermination Event.isUnsubscribe r.trace = true ∧
      r.trace.countP Event.isUnsubscribe ≤ 1 ∧
      precededBy Event.isUnsubscribe Event.isShutdown r.trace = true := by
    cases hp
    case configLost => simp [precededBy, Event.isUnsubscribe, Event.isShutdown]
    case nilLogger => simp [precededBy, Event.isUnsubscribe, Event.isShutdown]
    case storageDown =>
      simp [precededBy, Event.isUnsubscribe, Event.isShutdown, Event.isTermination,
        traceToClient]
    case warmLost =>
      simp [precededBy, Event.isUnsubscribe, Event.isShutdown, Event.isTermination,
        traceToClient, traceToWarm]
    case queueDown =>
      simp [precededBy, Event.isUnsubscribe, Event.isShutdown, Event.isTermination,
        traceToClient, traceToWarm, traceToConnect]
    case noSignal =>
      rcases hq : w.QueueSubscribe.err <;>
        simp [precededBy, Event.isUnsubscribe, Event.isShutdown, Event.isTermination,
          traceToClient, traceToWarm, traceToConnect, traceServing, traceRouter, hq]
    case nilSubscription cfg lg client res sc s _ _ _ _ _ h6 _ =>
      have hs := signal_notified _ _ h6
      rcases hq : w.QueueSubscribe.err <;>
        simp [precededBy, Event.isUnsubscribe, Event.isShutdown, Event.isTermination,
          traceToClient, traceToWarm, traceToConnect, traceServing, traceRouter, hq, hs]
    case stopped cfg lg client res sc s sb _ _ _ _ _ h6 _ =>
      have hs := signal_notified _ _ h6
      rcases hq : w.QueueSubscribe.err <;>
        simp [precededBy, Event.isUnsubscribe, Event.isShutdown, Event.isTermination,
          traceToClient, traceToWarm, traceToConnect, traceServing, traceRouter, hq, hs]
  obtain ⟨ha, hb, hc⟩ := h1
  refine ⟨?_, hb, ?_⟩
  · intro pre sub post h
    obtain ⟨x, hx, hpx⟩ := precededBy_sound _ _ _ ha pre _ post h rfl
    cases x <;> simp [Event.isTermination] at hpx
    exact ⟨_, hpx, hx⟩
  · intro pre srv post h
    obtain ⟨x, hx, hpx⟩ := precededBy_sound _ _ _ hc pre _ post h rfl
    cases x <;> simp [Event.isUnsubscribe] at hpx
    exact ⟨_, hx⟩

/-- C6 in the world where everything succeeds: Unsubscribe is called, after the
receipt of SIGINT and before Shutdown. -/
theorem C6_unsubscribe_only_on_shutdown_witness :
    (main happyWorld).trace =
        (main happyWorld).trace.take 22 ++ Event.Unsubscribe (some 6) ::
          (main happyWorld).trace.drop 23 ∧
    (∃ s, (s = SIGINT ∨ s = SIGABRT ∨ s = SIGTERM) ∧
      Event.Receive s ∈ (main happyWorld).trace.take 22) ∧
    (main happyWorld).trace =
        (main happyWorld).trace.take 24 ++ Event.Shutdown (serverOf sampleConfig) ::
          (main happyWorld).trace.drop 25 ∧
    (∃ sub, Event.Unsubscribe sub ∈ (main happyWorld).trace.take 24) :=
  ⟨by decide,
   (C6_unsubscribe_only_on_shutdown happyWorld).1 ((main happyWorld).trace.take 22) (some 6)
     ((main happyWorld).trace.drop 23) (by decide),
   by decide,
   (C6_unsubscribe_only_on_shutdown happyWorld).2.2 ((main happyWorld).trace.take 24)
     (serverOf sampleConfig) ((main happyWorld).trace.drop 25) (by decide)⟩

/-- C1 refuted in the world whose storage client cannot be created: the run
never invokes the warm-up, so it is not invoked exactly once in every run. -/
theorem C1_warm_once_counterexample :
    Event.NewClient ⟨"postgres://orders"⟩ 3 none ∈ (main storageDownWorld).trace ∧
    (main storageDownWorld).trace.countP Event.isWarmCall = 0 ∧
    ¬ ((main storageDownWorld).trace.countP Event.isWarmCall = 1) := by
  decide

/-- C1 as amended: in every run of main the warm-up is invoked at most once,
exactly once in every run in which the storage client was created, and never in
a run in which it was not; its return comes after its call; and whenever the
queue subscription is created or the HTTP server is started, exactly one
warm-up call was made before and it had returned before. -/
theorem C1_warm_before_traffic (w : World) :
    (main w).trace.countP Event.isWarmCall ≤ 1 ∧
    ((∃ db attempts client, Event.NewClient db attempts (some client) ∈ (main w).trace) →
      (main w).trace.countP Event.isWarmCall = 1) ∧
    ((¬ ∃ db attempts client, Event.NewClient db attempts (some client) ∈ (main w).trace) →
      (main w).trace.countP Event.isWarmCall = 0 ∧
      ∀ e ∈ (main w).trace, e.isWarmCall = false) ∧
    (∀ pre e post, (main w).trace = pre ++ e :: post → e.isWarmReturn = true →
      ∃ x ∈ pre, x.isWarmCall = true) ∧
    (∀ pre e post, (main w).trace = pre ++ e :: post →
      e.isSubscribe = true ∨ e.isServe = true →
      pre.countP Event.isWarmCall = 1 ∧ ∃ x ∈ pre, x.isWarmReturn = true) := by
  have hp := main_path w
  generalize main w = r at hp
  have h0 : (¬ ∃ db attempts client,
        Event.NewClient db attempts (some client) ∈ r.trace) →
      r.trace.countP Event.isWarmCall = 0 ∧ ∀ e ∈ r.trace, e.isWarmCall = false := by
    intro hno
    cases hp
    case configLost => simp [Event.isWarmCall]
    case nilLogger => simp [Event.isWarmCall]
    case storageDown => simp [Event.isWarmCall, traceToClient]
    case warmLost cfg lg client _ _ h3 _ =>
      exact absurd ⟨cfg.DB, 3, client, by simp [traceToClient, traceToWarm, h3]⟩ hno
    case queueDown cfg lg client res _ _ h3 _ _ =>
      exact absurd
        ⟨cfg.DB, 3, client, by simp [traceToClient, traceToWarm, traceToConnect, h3]⟩ hno
    case noSignal cfg lg client res sc _ _ h3 _ _ _ =>
      exact absurd
        ⟨cfg.DB, 3, client, by simp [traceToClient, traceToWarm, traceToConnect, h3]⟩ hno
    case nilSubscription cfg lg client res sc s _ _ h3 _ _ _ _ =>
      exact absurd
        ⟨cfg.DB, 3, client, by simp [traceToClient, traceToWarm, traceToConnect, h3]⟩ hno
    case stopped cfg lg client res sc s sb _ _ h3 _ _ _ _ =>
      exact absurd
        ⟨cfg.DB, 3, client, by simp [traceToClient, traceToWarm, traceToConnect, h3]⟩ hno
  have h1 : r.trace.countP Event.isWarmCall ≤ 1 ∧
      ((∃ db attempts client, Event.NewClient db attempts (some client) ∈ r.trace) →
        r.trace.countP Event.isWarmCall = 1) ∧
      precededBy Event.isWarmCall Event.isWarmReturn r.trace = true ∧
      precededBy Event.isWarmReturn (fun e => e.isSubscribe || e.isServe) r.trace = true := by
    cases hp
    case configLost => simp [precededBy, Event.isWarmCall, Event.isWarmReturn,
        Event.isSubscribe, Event.isServe]
    case nilLogger => simp [precededBy, Event.isWarmCall, Event.isWarmReturn,
        Event.isSubscribe, Event.isServe]
    case storageDown _ _ _ _ h3 =>
      simp [precededBy, Event.isWarmCall, Event.isWarmReturn, Event.isSubscribe,
        Event.isServe, traceToClient, h3]
    case warmLost =>
      simp [precededBy, Event.isWarmCall, Event.isWarmReturn, Event.isSubscribe,
        Event.isServe, traceToClient, traceToWarm]
    case queueDown =>
      simp [precededBy, Event.isWarmCall, Event.isWarmReturn, Event.isSubscribe,
        Event.isServe, traceToClient, traceToWarm, traceToConnect]
    case noSignal =>
      rcases hq : w.QueueSubscribe.err <;>
        simp [precededBy, Event.isWarmCall, Event.isWarmReturn, Event.isSubscribe,
          Event.isServe, traceToClient, traceToWarm, traceToConnect, traceServing,
          traceRouter, hq]
    case nilSubscription =>
      rcases hq : w.QueueSubscribe.err <;>
        simp [precededBy, Event.isWarmCall, Event.isWarmReturn, Event.isSubscribe,
          Event.isServe, traceToClient, traceToWarm, traceToConnect, traceServing,
          traceRouter, hq]
    case stopped =>
      rcases hq : w.QueueSubscribe.err <;>
        simp [precededBy, Event.isWarmCall, Event.isWarmReturn, Event.isSubscribe,
          Event.isServe, traceToClient, traceToWarm, traceToConnect, traceServing,
          traceRouter, hq]
  obtain ⟨ha, hb, hc, hd⟩ := h1
  refine ⟨ha, hb, h0, fun pre e post h he => precededBy_sound _ _ _ hc pre e post h he, ?_⟩
  intro pre e post h he
  have hq : (fun e : Event => e.isSubscribe || e.isServe) e = true := by
    simpa using he
  obtain ⟨x, hx, hpx⟩ := precededBy_sound _ _ _ hd pre e post h hq
  refine ⟨?_, x, hx, hpx⟩
  obtain ⟨pre1, post1, hpre⟩ := List.append_of_mem hx
  have h2 : r.trace = pre1 ++ x :: (post1 ++ e :: post) := by
    rw [h, hpre]; simp
  obtain ⟨y, hy, hpy⟩ := precededBy_sound _ _ _ hc pre1 x _ h2 hpx
  have hge : 1 ≤ pre.countP Event.isWarmCall := by
    have : 0 < pre.countP Event.isWarmCall :=
      List.countP_pos_iff.mpr ⟨y, by rw [hpre]; simp [hy], hpy⟩
    omega
  have hle : pre.countP Event.isWarmCall ≤ r.trace.countP Event.isWarmCall := by
    rw [h, List.countP_append]; omega
  omega

/-- C1 as amended, in the world where everything succeeds: the warm-up is
invoked exactly once, and before the subscription is created it was called once
and had returned; and in the world whose storage client cannot be created: the
warm-up is never invoked. -/
theorem C1_warm_before_traffic_witness :
    (∃ db attempts client,
      Event.NewClient db attempts (some client) ∈ (main happyWorld).trace) ∧
    (main happyWorld).trace.countP Event.isWarmCall = 1 ∧
    (main happyWorld).trace =
      (main happyWorld).trace.take 9 ++
        Event.QueueSubscribe 5 "orders" "oders_group"
          ⟨sampleConfig, some ⟨.Text, .Debug⟩, 1, 3, 4⟩
          [.SetManualAckMode, .AckWait 60000000000, .DurableName "simple-cluster-dur",
           .MaxInflight 25, .DeliverAllAvailable] ⟨some 6, false⟩ ::
        (main happyWorld).trace.drop 10 ∧
    (((main happyWorld).trace.take 9).countP Event.isWarmCall = 1 ∧
      ∃ x ∈ (main happyWorld).trace.take 9, x.isWarmReturn = true) ∧
    (¬ ∃ db attempts client,
      Event.NewClient db attempts (some client) ∈ (main storageDownWorld).trace) ∧
    ((main storageDownWorld).trace.countP Event.isWarmCall = 0 ∧
      ∀ e ∈ (main storageDownWorld).trace, e.isWarmCall = false) :=
  have hno : ¬ ∃ db attempts client,
      Event.NewClient db attempts (some client) ∈ (main storageDownWorld).trace := by
    have ht : (main storageDownWorld).trace =
        [.MustLoad,
         .Log (some ⟨.Text, .Debug⟩) .Info "Orders service is starting!"
           [.String "env" "local"],
         .NewService 1, .NewClient ⟨"postgres://orders"⟩ 3 none,
         .Log (some ⟨.Text, .Debug⟩) .Error "Failed connection to storage!: %s" [.Err]] := by
      decide
    rw [ht]
    simp
  ⟨⟨⟨"postgres://orders"⟩, 3, 2, by decide⟩,
   (C1_warm_before_traffic happyWorld).2.1 ⟨⟨"postgres://orders"⟩, 3, 2, by decide⟩,
   by decide,
   (C1_warm_before_traffic happyWorld).2.2.2.2 ((main happyWorld).trace.take 9)
     (Event.QueueSubscribe 5 "orders" "oders_group"
          ⟨sampleConfig, some ⟨.Text, .Debug⟩, 1, 3, 4⟩
          [.SetManualAckMode, .AckWait 60000000000, .DurableName "simple-cluster-dur",
           .MaxInflight 25, .DeliverAllAvailable] ⟨some 6, false⟩)
     ((main happyWorld).trace.drop 10) (by decide) (Or.inl rfl),
   hno,
   (C1_warm_before_traffic storageDownWorld).2.2.1 hno⟩

/-- C2: warm-up failure is non-fatal.  Whenever the warm-up call returns,
whatever its result (success or failure of loading), the next step of main is
the queue connection attempt, and once the connection is made main subscribes
the consumer and starts the HTTP server.  No branch exits or skips start-up
because of the warm-up result: main exits only when the queue connection itself
fails, and with any other warm-up result the run ends the same way and
consists of the same steps, the recorded result apart. -/
theorem C2_warm_result_ignored (w : World) (res : WarmResult)
    (h : Event.GetFromDBReturned res ∈ (main w).trace) :
    (∃ pre post cfg log, (main w).trace =
      pre ++ [.GetFromDBReturned res, .NewNatsConnect cfg log w.NewNatsConnect] ++ post) ∧
    (w.NewNatsConnect ≠ none →
      (∃ e ∈ (main w).trace, e.isSubscribe = true) ∧
      (∃ e ∈ (main w).trace, e.isServe = true)) ∧
    (w.NewNatsConnect = none → (main w).outcome = .exited 1) ∧
    (∀ code, (main w).outcome = .exited code → w.NewNatsConnect = none) ∧
    (∀ res2 : WarmResult,
      (main { w with GetFromDB := some res2 }).outcome = (main w).outcome ∧
      (main { w with GetFromDB := some res2 }).trace.filter (fun e => !e.isWarmReturn) =
        (main w).trace.filter (fun e => !e.isWarmReturn)) := by
  have hw : w.GetFromDB = some res := by
    have hp := main_path w
    generalize main w = r at hp h
    cases hp <;>
      simp_all [traceToClient, traceToWarm, traceToConnect, traceServing, traceRouter]
  refine ⟨?_, ?_, ?_, ?_, ?_⟩
  · have hp := main_path w
    generalize main w = r at hp h
    cases hp
    case configLost => simp at h
    case nilLogger => simp at h
    case storageDown => simp [traceToClient] at h
    case warmLost => simp [traceToClient, traceToWarm] at h
    case queueDown cfg lg client res1 _ _ _ h4 _ =>
      have : res1 = res := by rw [hw] at h4; exact (Option.some.inj h4).symm
      subst this
      exact ⟨traceToWarm w cfg (some lg) client,
        [.Log (some lg) .Error "NATS: " [.Err]], cfg, some lg, by simp [traceToConnect]⟩
    case noSignal cfg lg client res1 sc _ _ _ h4 _ _ =>
      have : res1 = res := by rw [hw] at h4; exact (Option.some.inj h4).symm
      subst this
      exact ⟨traceToWarm w cfg (some lg) client, traceServing w cfg (some lg) sc, cfg,
        some lg, by simp [traceToConnect]⟩
    case nilSubscription cfg lg client res1 sc s _ _ _ h4 _ _ _ =>
      have : res1 = res := by rw [hw] at h4; exact (Option.some.inj h4).symm
      subst this
      exact ⟨traceToWarm w cfg (some lg) client,
        traceServing w cfg (some lg) sc ++ [.Receive s, .Unsubscribe none, .Close sc], cfg,
        some lg, by simp [traceToConnect]⟩
    case stopped cfg lg client res1 sc s sb _ _ _ h4 _ _ _ =>
      have : res1 = res := by rw [hw] at h4; exact (Option.some.inj h4).symm
      subst this
      exact ⟨traceToWarm w cfg (some lg) client,
        traceServing w cfg (some lg) sc ++ [.Receive s, .Unsubscribe (some sb),
          .Log (some lg) .Error "Server stoped!" [], .Shutdown (serverOf cfg), .Close sc],
        cfg, some lg, by simp [traceToConnect]⟩
  · intro hn
    have hsub : ∀ (cfg : Config) (log : Option Logger) (sc : ConnRef),
        (∃ e ∈ traceServing w cfg log sc, e.isSubscribe = true) ∧
        (∃ e ∈ traceServing w cfg log sc, e.isServe = true) := fun cfg log sc =>
      ⟨⟨.QueueSubscribe sc "orders" "oders_group"
          ⟨cfg, log, w.NewService, w.NewRepository, w.NewCache⟩
          [.SetManualAckMode, .AckWait ackWait, .DurableName durableName,
           .MaxInflight maxInflight, .DeliverAllAvailable] w.QueueSubscribe,
        by simp [traceServing], rfl⟩,
       ⟨.GoListenAndServe (serverOf cfg), by simp [traceServing, traceRouter], rfl⟩⟩
    have hp := main_path w
    generalize main w = r at hp h
    cases hp
    case configLost => simp at h
    case nilLogger => simp at h
    case storageDown => simp [traceToClient] at h
    case warmLost => simp [traceToClient, traceToWarm] at h
    case queueDown _ _ _ _ _ _ _ _ h5 => exact absurd h5 hn
    case noSignal cfg lg client res1 sc _ _ _ _ _ _ =>
      obtain ⟨⟨e1, h1, hs1⟩, ⟨e2, h2, hs2⟩⟩ := hsub cfg (some lg) sc
      exact ⟨⟨e1, by simp [h1], hs1⟩, ⟨e2, by simp [h2], hs2⟩⟩
    case nilSubscription cfg lg client res1 sc s _ _ _ _ _ _ _ =>
      obtain ⟨⟨e1, h1, hs1⟩, ⟨e2, h2, hs2⟩⟩ := hsub cfg (some lg) sc
      exact ⟨⟨e1, by simp [h1], hs1⟩, ⟨e2, by simp [h2], hs2⟩⟩
    case stopped cfg lg client res1 sc s sb _ _ _ _ _ _ _ =>
      obtain ⟨⟨e1, h1, hs1⟩, ⟨e2, h2, hs2⟩⟩ := hsub cfg (some lg) sc
      exact ⟨⟨e1, by simp [h1], hs1⟩, ⟨e2, by simp [h2], hs2⟩⟩
  · intro hn
    have hp := main_path w
    generalize main w = r at hp h
    cases hp <;>
      simp_all [traceToClient, traceToWarm, traceToConnect, traceServing, traceRouter]
  · intro code hcode
    have hp := main_path w
    generalize main w = r at hp h hcode
    cases hp
    case configLost => simp at h
    case nilLogger => simp at h
    case storageDown => simp [traceToClient] at h
    case warmLost => simp [traceToClient, traceToWarm] at h
    case queueDown _ _ _ _ _ _ _ _ h5 => exact h5
    case noSignal => simp at hcode
    case nilSubscription => simp at hcode
    case stopped => simp at hcode
  · intro res2
    obtain ⟨ml, sv, pg, rp, ch, wm, nc, qs, sg⟩ := w
    simp only at hw
    subst hw
    clear h
    simp only [main]
    rcases ml with _ | cfg
    · simp [emit, halt]
    simp only []
    generalize setupLogger cfg.Service.Env = log
    rcases log with _ | lg
    · simp [emit, halt, logCall]
    rcases pg with _ | client
    · simp [emit, halt, logCall]
    rcases nc with _ | sc
    · simp [emit, halt, logCall, Event.isWarmReturn]
    rcases Option.filter (fun s => decide (s ∈ notified)) sg with _ | s <;>
      rcases qs with ⟨_ | sb, _ | _⟩ <;>
      simp [emit, halt, logCall, withDefer, Event.isWarmReturn]

/-- C2 in the world where the warm-up fails to load and everything else
succeeds: the consumer is subscribed and the HTTP server started, main does not
exit, and the run ends as it does when the warm-up loads ten orders. -/
theorem C2_warm_result_ignored_witness :
    Event.GetFromDBReturned .failed ∈ (main warmFailedWorld).trace ∧
    warmFailedWorld.NewNatsConnect ≠ none ∧
    ((∃ e ∈ (main warmFailedWorld).trace, e.isSubscribe = true) ∧
      (∃ e ∈ (main warmFailedWorld).trace, e.isServe = true)) ∧
    (∀ code, (main warmFailedWorld).outcome = .exited code →
      warmFailedWorld.NewNatsConnect = none) ∧
    ((main { warmFailedWorld with GetFromDB := some (.loaded 10) }).outcome =
        (main warmFailedWorld).outcome ∧
      (main { warmFailedWorld with GetFromDB := some (.loaded 10) }).trace.filter
          (fun e => !e.isWarmReturn) =
        (main warmFailedWorld).trace.filter (fun e => !e.isWarmReturn)) ∧
    (main warmFailedWorld).outcome = .returned :=
  ⟨by decide, by decide,
   (C2_warm_result_ignored warmFailedWorld .failed (by decide)).2.1 (by decide),
   (C2_warm_result_ignored warmFailedWorld .failed (by decide)).2.2.2.1,
   (C2_warm_result_ignored warmFailedWorld .failed (by decide)).2.2.2.2 (.loaded 10),
   by decide⟩

/-- C5 refuted in the world whose storage client cannot be created: that run of
main constructs no cache and no repository, so main does not construct exactly
one of each in every run. -/
theorem C5_exactly_one_counterexample :
    Event.NewClient ⟨"postgres://orders"⟩ 3 none ∈ (main storageDownWorld).trace ∧
    (main storageDownWorld).trace.countP Event.isNewCache = 0 ∧
    (main storageDownWorld).trace.countP Event.isNewRepository = 0 ∧
    ¬ ((main storageDownWorld).trace.countP Event.isNewCache = 1 ∧
       (main storageDownWorld).trace.countP Event.isNewRepository = 1) := by
  decide

/-- C5 as amended: every run of main constructs at most one repository and at
most one cache: exactly one of each, followed by the warm-up on that cache and
repository, in a run in which the storage client was created, and none in a run
in which it was not.  Every cache and repository handed to the warm-up, to the
consumer handler given to QueueSubscribe and to the lookup handler registered
on GET /order={id} is the one those constructor calls returned; and in every
run in which the queue connection was made, the subscription is created with a
consumer handler holding that cache and repository and the lookup handler
holding them is registered on GET /order={id}. -/
theorem C5_one_cache_one_repository (w : World) :
    (main w).trace.countP Event.isNewCache ≤ 1 ∧
    (main w).trace.countP Event.isNewRepository ≤ 1 ∧
    ((∃ db attempts client, Event.NewClient db attempts (some client) ∈ (main w).trace) →
      (main w).trace.countP Event.isNewCache = 1 ∧
      (main w).trace.countP Event.isNewRepository = 1 ∧
      Event.NewCache 10 w.NewCache ∈ (main w).trace ∧
      (∃ client log, Event.NewRepository client log w.NewRepository ∈ (main w).trace) ∧
      Event.GetFromDB w.NewCache w.NewRepository ∈ (main w).trace) ∧
    ((¬ ∃ db attempts client, Event.NewClient db attempts (some client) ∈ (main w).trace) →
      (main w).trace.countP Event.isNewCache = 0 ∧
      (main w).trace.countP Event.isNewRepository = 0) ∧
    (∀ capacity ret, Event.NewCache capacity ret ∈ (main w).trace → ret = w.NewCache) ∧
    (∀ client log ret, Event.NewRepository client log ret ∈ (main w).trace →
      ret = w.NewRepository) ∧
    (∀ cache repo, Event.GetFromDB cache repo ∈ (main w).trace →
      cache = w.NewCache ∧ repo = w.NewRepository) ∧
    (∀ conn subject qgroup cb options ret,
      Event.QueueSubscribe conn subject qgroup cb options ret ∈ (main w).trace →
      cb.cache = w.NewCache ∧ cb.repo = w.NewRepository) ∧
    (∀ pattern log repo cache,
      Event.Get pattern (.GetOrder log repo cache) ∈ (main w).trace →
      pattern = "/order={id}" ∧ cache = w.NewCache ∧ repo = w.NewRepository) ∧
    ((∃ cfg log sc, Event.NewNatsConnect cfg log (some sc) ∈ (main w).trace) →
      (∃ conn cfg log service options ret,
        Event.QueueSubscribe conn "orders" "oders_group"
          ⟨cfg, log, service, w.NewRepository, w.NewCache⟩ options ret ∈ (main w).trace) ∧
      ∃ log, Event.Get "/order={id}" (.GetOrder log w.NewRepository w.NewCache) ∈
        (main w).trace) := by
  have hp := main_path w
  generalize main w = r at hp
  have hserving : ∀ (cfg : Config) (log : Option Logger) (sc : ConnRef),
      Event.QueueSubscribe sc "orders" "oders_group"
          ⟨cfg, log, w.NewService, w.NewRepository, w.NewCache⟩
          [.SetManualAckMode, .AckWait ackWait, .DurableName durableName,
           .MaxInflight maxInflight, .DeliverAllAvailable] w.QueueSubscribe ∈
        traceServing w cfg log sc ∧
      Event.Get "/order={id}" (.GetOrder log w.NewRepository w.NewCache) ∈
        traceServing w cfg log sc := fun cfg log sc =>
    ⟨by simp [traceServing], by simp [traceServing, traceRouter]⟩
  have hwarm : ∀ (cfg : Config) (log : Option Logger) (client : ClientRef),
      Event.NewClient cfg.DB 3 w.NewClient ∈ traceToWarm w cfg log client ∧
      Event.NewCache 10 w.NewCache ∈ traceToWarm w cfg log client ∧
      Event.NewRepository client log w.NewRepository ∈ traceToWarm w cfg log client ∧
      Event.GetFromDB w.NewCache w.NewRepository ∈ traceToWarm w cfg log client :=
    fun cfg log client =>
    ⟨by simp [traceToWarm, traceToClient], by simp [traceToWarm], by simp [traceToWarm],
     by simp [traceToWarm]⟩
  refine ⟨?_, ?_, ?_, ?_, ?_, ?_, ?_, ?_, ?_, ?_⟩
  · cases hp <;> rcases hq : w.QueueSubscribe.err <;>
      simp [Event.isNewCache, traceToClient, traceToWarm, traceToConnect, traceServing,
        traceRouter, hq]
  · cases hp <;> rcases hq : w.QueueSubscribe.err <;>
      simp [Event.isNewRepository, traceToClient, traceToWarm, traceToConnect, traceServing,
        traceRouter, hq]
  · rintro ⟨db, attempts, c, hmem⟩
    cases hp
    case configLost => simp at hmem
    case nilLogger => simp at hmem
    case storageDown _ _ _ _ h3 => simp [traceToClient, h3] at hmem
    case warmLost cfg lg client _ _ _ _ =>
      obtain ⟨_, h2, h3, h4⟩ := hwarm cfg (some lg) client
      exact ⟨by simp [Event.isNewCache, traceToClient, traceToWarm],
        by simp [Event.isNewRepository, traceToClient, traceToWarm],
        h2, ⟨client, some lg, h3⟩, h4⟩
    case queueDown cfg lg client res _ _ _ _ _ =>
      obtain ⟨_, h2, h3, h4⟩ := hwarm cfg (some lg) client
      exact ⟨by simp [Event.isNewCache, traceToClient, traceToWarm, traceToConnect],
        by simp [Event.isNewRepository, traceToClient, traceToWarm, traceToConnect],
        by simp [traceToConnect, h2], ⟨client, some lg, by simp [traceToConnect, h3]⟩,
        by simp [traceToConnect, h4]⟩
    case noSignal cfg lg client res sc _ _ _ _ _ _ =>
      obtain ⟨_, h2, h3, h4⟩ := hwarm cfg (some lg) client
      refine ⟨?_, ?_, by simp [traceToConnect, h2],
        ⟨client, some lg, by simp [traceToConnect, h3]⟩, by simp [traceToConnect, h4]⟩ <;>
      rcases hq : w.QueueSubscribe.err <;>
        simp [Event.isNewCache, Event.isNewRepository, traceToClient, traceToWarm,
          traceToConnect, traceServing, traceRouter, hq]
    case nilSubscription cfg lg client res sc s _ _ _ _ _ _ _ =>
      obtain ⟨_, h2, h3, h4⟩ := hwarm cfg (some lg) client
      refine ⟨?_, ?_, by simp [traceToConnect, h2],
        ⟨client, some lg, by simp [traceToConnect, h3]⟩, by simp [traceToConnect, h4]⟩ <;>
      rcases hq : w.QueueSubscribe.err <;>
        simp [Event.isNewCache, Event.isNewRepository, traceToClient, traceToWarm,
          traceToConnect, traceServing, traceRouter, hq]
    case stopped cfg lg client res sc s sb _ _ _ _ _ _ _ =>
      obtain ⟨_, h2, h3, h4⟩ := hwarm cfg (some lg) client
      refine ⟨?_, ?_, by simp [traceToConnect, h2],
        ⟨client, some lg, by simp [traceToConnect, h3]⟩, by simp [traceToConnect, h4]⟩ <;>
      rcases hq : w.QueueSubscribe.err <;>
        simp [Event.isNewCache, Event.isNewRepository, traceToClient, traceToWarm,
          traceToConnect, traceServing, traceRouter, hq]
  · intro hno
    cases hp
    case configLost => simp [Event.isNewCache, Event.isNewRepository]
    case nilLogger => simp [Event.isNewCache, Event.isNewRepository]
    case storageDown => simp [Event.isNewCache, Event.isNewRepository, traceToClient]
    case warmLost cfg lg client _ _ h3 _ =>
      exact absurd ⟨cfg.DB, 3, client, by rw [← h3]; exact (hwarm cfg (some lg) client).1⟩ hno
    case queueDown cfg lg client res _ _ h3 _ _ =>
      exact absurd ⟨cfg.DB, 3, client,
        by rw [← h3]; simp [traceToConnect, (hwarm cfg (some lg) client).1]⟩ hno
    case noSignal cfg lg client res sc _ _ h3 _ _ _ =>
      exact absurd ⟨cfg.DB, 3, client,
        by rw [← h3]; simp [traceToConnect, (hwarm cfg (some lg) client).1]⟩ hno
    case nilSubscription cfg lg client res sc s _ _ h3 _ _ _ _ =>
      exact absurd ⟨cfg.DB, 3, client,
        by rw [← h3]; simp [traceToConnect, (hwarm cfg (some lg) client).1]⟩ hno
    case stopped cfg lg client res sc s sb _ _ h3 _ _ _ _ =>
      exact absurd ⟨cfg.DB, 3, client,
        by rw [← h3]; simp [traceToConnect, (hwarm cfg (some lg) client).1]⟩ hno
  · intro capacity ret h
    cases hp <;> rcases hq : w.QueueSubscribe.err <;>
      simp [traceToClient, traceToWarm, traceToConnect, traceServing, traceRouter, hq] at h <;>
      exact h.2
  · intro client log ret h
    cases hp <;> rcases hq : w.QueueSubscribe.err <;>
      simp [traceToClient, traceToWarm, traceToConnect, traceServing, traceRouter, hq] at h <;>
      exact h.2.2
  · intro cache repo h
    cases hp <;> rcases hq : w.QueueSubscribe.err <;>
      simp [traceToClient, traceToWarm, traceToConnect, traceServing, traceRouter, hq] at h <;>
      exact h
  · intro conn subject qgroup cb options ret h
    cases hp <;> rcases hq : w.QueueSubscribe.err <;>
      simp [traceToClient, traceToWarm, traceToConnect, traceServing, traceRouter, hq] at h <;>
      simp [h]
  · intro pattern log repo cache h
    cases hp <;> rcases hq : w.QueueSubscribe.err <;>
      simp [traceToClient, traceToWarm, traceToConnect, traceServing, traceRouter, hq] at h <;>
      simp [h]
  · rintro ⟨cfg0, log0, sc0, hmem⟩
    cases hp
    case configLost => simp at hmem
    case nilLogger => simp at hmem
    case storageDown => simp [traceToClient] at hmem
    case warmLost => simp [traceToClient, traceToWarm] at hmem
    case queueDown _ _ _ _ _ _ _ _ h5 =>
      simp [traceToClient, traceToWarm, traceToConnect, h5] at hmem
    case noSignal cfg lg client res sc _ _ _ _ _ _ =>
      obtain ⟨h1, h2⟩ := hserving cfg (some lg) sc
      exact ⟨⟨sc, cfg, some lg, w.NewService, _, w.QueueSubscribe,
          List.mem_append.mpr (Or.inr h1)⟩,
        ⟨some lg, List.mem_append.mpr (Or.inr h2)⟩⟩
    case nilSubscription cfg lg client res sc s _ _ _ _ _ _ _ =>
      obtain ⟨h1, h2⟩ := hserving cfg (some lg) sc
      exact ⟨⟨sc, cfg, some lg, w.NewService, _, w.QueueSubscribe,
          List.mem_append.mpr (Or.inl (List.mem_append.mpr (Or.inr h1)))⟩,
        ⟨some lg, List.mem_append.mpr (Or.inl (List.mem_append.mpr (Or.inr h2)))⟩⟩
    case stopped cfg lg client res sc s sb _ _ _ _ _ _ _ =>
      obtain ⟨h1, h2⟩ := hserving cfg (some lg) sc
      exact ⟨⟨sc, cfg, some lg, w.NewService, _, w.QueueSubscribe,
          List.mem_append.mpr (Or.inl (List.mem_append.mpr (Or.inr h1)))⟩,
        ⟨some lg, List.mem_append.mpr (Or.inl (List.mem_append.mpr (Or.inr h2)))⟩⟩

/-- C5 as amended, in the world where everything succeeds: one cache and one
repository are constructed and handed to the warm-up, to the consumer handler
of the subscription and to the lookup handler; and in the world whose storage
client cannot be created: none is constructed. -/
theorem C5_one_cache_one_repository_witness :
    (∃ db attempts client,
      Event.NewClient db attempts (some client) ∈ (main happyWorld).trace) ∧
    ((main happyWorld).trace.countP Event.isNewCache = 1 ∧
      (main happyWorld).trace.countP Event.isNewRepository = 1 ∧
      Event.NewCache 10 happyWorld.NewCache ∈ (main happyWorld).trace ∧
      (∃ client log,
        Event.NewRepository client log happyWorld.NewRepository ∈ (main happyWorld).trace) ∧
      Event.GetFromDB happyWorld.NewCache happyWorld.NewRepository ∈
        (main happyWorld).trace) ∧
    (∃ cfg log sc, Event.NewNatsConnect cfg log (some sc) ∈ (main happyWorld).trace) ∧
    ((∃ conn cfg log service options ret,
        Event.QueueSubscribe conn "orders" "oders_group"
          ⟨cfg, log, service, happyWorld.NewRepository, happyWorld.NewCache⟩ options ret ∈
            (main happyWorld).trace) ∧
      ∃ log, Event.Get "/order={id}"
        (.GetOrder log happyWorld.NewRepository happyWorld.NewCache) ∈
          (main happyWorld).trace) ∧
    (¬ ∃ db attempts client,
      Event.NewClient db attempts (some client) ∈ (main storageDownWorld).trace) ∧
    ((main storageDownWorld).trace.countP Event.isNewCache = 0 ∧
      (main storageDownWorld).trace.countP Event.isNewRepository = 0) :=
  have hno : ¬ ∃ db attempts client,
      Event.NewClient db attempts (some client) ∈ (main storageDownWorld).trace := by
    have ht : (main storageDownWorld).trace =
        [.MustLoad,
         .Log (some ⟨.Text, .Debug⟩) .Info "Orders service is starting!"
           [.String "env" "local"],
         .NewService 1, .NewClient ⟨"postgres://orders"⟩ 3 none,
         .Log (some ⟨.Text, .Debug⟩) .Error "Failed connection to storage!: %s" [.Err]] := by
      decide
    rw [ht]
    simp
  ⟨⟨⟨"postgres://orders"⟩, 3, 2, by decide⟩,
   (C5_one_cache_one_repository happyWorld).2.2.1 ⟨⟨"postgres://orders"⟩, 3, 2, by decide⟩,
   ⟨sampleConfig, some ⟨.Text, .Debug⟩, 5, by decide⟩,
   (C5_one_cache_one_repository happyWorld).2.2.2.2.2.2.2.2.2
     ⟨sampleConfig, some ⟨.Text, .Debug⟩, 5, by decide⟩,
   hno,
   (C5_one_cache_one_repository storageDownWorld).2.2.2.1 hno⟩

/-- One `Put` keeps the capacity and keeps the number of entries within it. -/
theorem Cache.Put_bound (c : Cache) (id : String) (o : Order)
    (hcap : 0 < c.capacity) (h : c.entries.length ≤ c.capacity) :
    (c.Put id o).capacity = c.capacity ∧ (c.Put id o).entries.length ≤ c.capacity := by
  unfold Cache.Put
  split
  · rename_i hany
    refine ⟨rfl, ?_⟩
    obtain ⟨x, hx, hxid⟩ := List.any_eq_true.mp hany
    have hlt : (c.entries.filter (fun e => decide (e.1 ≠ id))).length < c.entries.length :=
      List.length_filter_lt_length_iff_exists.mpr ⟨x, hx, by simpa using hxid⟩
    simp only [List.length_cons]
    omega
  · split
    · refine ⟨rfl, ?_⟩
      simp only [List.length_cons, List.length_dropLast]
      omega
    · rename_i hne
      refine ⟨rfl, ?_⟩
      simp only [List.length_cons]
      omega

/-- One `Get` keeps the capacity and keeps the number of entries within it. -/
theorem Cache.Get_bound (c : Cache) (id : String) (h : c.entries.length ≤ c.capacity) :
    (c.Get id).2.capacity = c.capacity ∧ (c.Get id).2.entries.length ≤ c.capacity := by
  unfold Cache.Get
  split
  · rename_i e hfind
    refine ⟨rfl, ?_⟩
    have hx : e ∈ c.entries := List.mem_of_find?_eq_some hfind
    have hxid : decide (e.1 = id) = true := by
      exact @List.find?_some _ (fun x : String × Order => decide (x.1 = id)) e
        c.entries hfind
    have hlt : (c.entries.filter (fun x => decide (x.1 ≠ id))).length < c.entries.length :=
      List.length_filter_lt_length_iff_exists.mpr ⟨e, hx, by simpa using hxid⟩
    simp only [List.length_cons]
    omega
  · exact ⟨rfl, h⟩

/-- The warm-up keeps the capacity and keeps the number of entries within it. -/
theorem Cache.Warm_bound (orders : List Order) :
    ∀ (c : Cache), 0 < c.capacity → c.entries.length ≤ c.capacity →
      (c.Warm orders).capacity = c.capacity ∧
      (c.Warm orders).entries.length ≤ c.capacity := by
  induction orders with
  | nil => intro c _ h; exact ⟨rfl, h⟩
  | cons o os ih =>
    intro c hcap h
    obtain ⟨h1, h2⟩ := Cache.Put_bound c o.uid o hcap h
    obtain ⟨h3, h4⟩ := ih (c.Put o.uid o) (by omega) (by omega)
    simp only [Cache.Warm, List.foldl_cons] at h3 h4 ⊢
    exact ⟨by omega, by omega⟩

/-- A sequence of operations keeps the capacity and keeps the number of entries
within it. -/
theorem Cache.run_bound (ops : List CacheOp) :
    ∀ (c : Cache), 0 < c.capacity → c.entries.length ≤ c.capacity →
      (c.run ops).capacity = c.capacity ∧ (c.run ops).entries.length ≤ c.capacity := by
  induction ops with
  | nil => intro c _ h; exact ⟨rfl, h⟩
  | cons op os ih =>
    intro c hcap h
    have hstep : (c.apply op).capacity = c.capacity ∧
        (c.apply op).entries.length ≤ c.capacity := by
      cases op with
      | Put id o => exact Cache.Put_bound c id o hcap h
      | Get id => exact Cache.Get_bound c id h
    obtain ⟨h3, h4⟩ := ih (c.apply op) (by omega) (by omega)
    simp only [Cache.run, List.foldl_cons] at h3 h4 ⊢
    exact ⟨by omega, by omega⟩

/-- C3: the cache main constructs has capacity 10, and a cache of that capacity
holds at most 10 entries after the warm-up with any orders and after any
sequence of Put (and Get) operations that follows. -/
theorem C3_cache_capacity_invariant (w : World) (capacity : Nat) (ref : CacheRef)
    (h : Event.NewCache capacity ref ∈ (main w).trace)
    (orders : List Order) (ops : List CacheOp) :
    capacity = 10 ∧
    ((NewCache capacity).Warm orders).entries.length ≤ 10 ∧
    (((NewCache capacity).Warm orders).run ops).entries.length ≤ 10 := by
  have hcap : capacity = 10 := by
    have hp := main_path w
    generalize main w = r at hp h
    cases hp <;> rcases hq : w.QueueSubscribe.err <;>
      simp [traceToClient, traceToWarm, traceToConnect, traceServing, traceRouter, hq] at h <;>
      exact h.1
  subst hcap
  obtain ⟨h1, h2⟩ := Cache.Warm_bound orders (NewCache 10) (by decide) (by decide)
  obtain ⟨_, h4⟩ := Cache.run_bound ops ((NewCache 10).Warm orders)
    (by rw [h1]; decide) (by rw [h1]; exact h2)
  rw [h1] at h4
  exact ⟨rfl, h2, h4⟩

/-- C3 in the world where everything succeeds, warming with twelve orders and
then putting two more. -/
theorem C3_cache_capacity_invariant_witness :
    Event.NewCache 10 4 ∈ (main happyWorld).trace ∧
    ((NewCache 10).Warm sampleOrders).entries.length ≤ 10 ∧
    (((NewCache 10).Warm sampleOrders).run
      [.Put "a" ⟨"a", "x"⟩, .Get "11", .Put "b" ⟨"b", "y"⟩]).entries.length ≤ 10 :=
  ⟨by decide,
   (C3_cache_capacity_invariant happyWorld 10 4 (by decide) sampleOrders
     [.Put "a" ⟨"a", "x"⟩, .Get "11", .Put "b" ⟨"b", "y"⟩]).2⟩

end Orders
